import Mathlib

/-!
Verification of the Gene-Characteristics-Identifier backend
(`src/backend/app.py`).

The Python program is shallowly embedded: JSON values are the inductive
type `JValue`; Python operations that may raise (`d[k]`, `len`, `join`,
slicing, `.get` on a non-dict, `.strip()` on a non-string) are modelled
in the `Except String` monad, the error string standing for `str(e)` of
the raised exception.  The outcome of each outbound HTTP call
(`requests.get(...).json()` / `requests.post(...).json()`) is an input
of type `Except String JValue`: `.error e` models a network failure,
timeout or JSON-decoding failure raising an exception with message `e`,
`.ok v` models a parsed JSON body `v`.  Python dicts built by the
program are association lists in insertion order.
-/

namespace GeneApp

/-- A JSON value, as produced by Python's `json` decoding. -/
inductive JValue where
  | null : JValue
  | bool (b : Bool) : JValue
  | num (n : Int) : JValue
  | str (s : String) : JValue
  | arr (xs : List JValue) : JValue
  | obj (fields : List (String × JValue)) : JValue

/-- Python `==` between a JSON value and a string literal. -/
def JValue.eqStr : JValue → String → Bool
  | .str s, k => s == k
  | _, _ => false

/-- Substring test on exploded strings (Python `sub in s`). -/
def strOccursAux (msg pat : List Char) : Bool :=
  match pat with
  | [] => true
  | p :: ps =>
    match msg with
    | [] => false
    | c :: cs => List.isPrefixOf (p :: ps) (c :: cs) || strOccursAux cs (p :: ps)

/-- Python `sym in msg` on strings. -/
def strOccurs (sym msg : String) : Bool := strOccursAux msg.toList sym.toList

/-- Python `k in v`: key membership for dicts, value membership for lists,
substring test for strings, `TypeError` otherwise. -/
def JValue.hasKey : JValue → String → Except String Bool
  | .obj fs, k => .ok (fs.any fun p => p.1 == k)
  | .arr xs, k => .ok (xs.any fun v => v.eqStr k)
  | .str s, k => .ok (strOccurs k s)
  | _, _ => .error "TypeError: argument of type is not iterable"

/-- Python list indexing `xs[n]`, with negative indices counted from the
end and `IndexError` out of range. -/
def pyListIndex (xs : List JValue) (n : Int) : Except String JValue :=
  let i : Int := if n < 0 then n + xs.length else n
  if h : 0 ≤ i ∧ i.toNat < xs.length then .ok (xs.get ⟨i.toNat, h.2⟩)
  else .error "IndexError: list index out of range"

/-- Python subscription `v[k]` with a JSON key: dict lookup (`KeyError`
when absent or the key is not a string), list/string indexing by an
integer, `TypeError` on everything else. -/
def JValue.index : JValue → JValue → Except String JValue
  | .obj fs, .str k =>
      match fs.lookup k with
      | some v => .ok v
      | none => .error ("KeyError: " ++ k)
  | .obj _, _ => .error "KeyError: non-string key"
  | .arr xs, .num n => pyListIndex xs n
  | .arr _, _ => .error "TypeError: list indices must be integers"
  | .str s, .num n =>
      match pyListIndex (s.toList.map fun c => .str (String.singleton c)) n with
      | .ok v => .ok v
      | .error _ => .error "IndexError: string index out of range"
  | .str _, _ => .error "TypeError: string indices must be integers"
  | _, _ => .error "TypeError: object is not subscriptable"

/-- Python truthiness of a JSON value. -/
def JValue.truthy : JValue → Bool
  | .null => false
  | .bool b => b
  | .num n => n != 0
  | .str s => !s.isEmpty
  | .arr xs => !xs.isEmpty
  | .obj fs => !fs.isEmpty

/-- Python `v.get(k, dflt)`: dict lookup with default, `AttributeError`
when `v` is not a dict. -/
def JValue.pyGet : JValue → String → JValue → Except String JValue
  | .obj fs, k, d => .ok ((fs.lookup k).getD d)
  | _, _, _ => .error "AttributeError: object has no attribute get"

/-- Python `len(v)`. -/
def JValue.pyLen : JValue → Except String Nat
  | .arr xs => .ok xs.length
  | .str s => .ok s.length
  | .obj fs => .ok fs.length
  | _ => .error "TypeError: object has no len"

mutual

/-- Python `repr(v)` of a JSON value. -/
def JValue.pyRepr : JValue → String
  | .null => "None"
  | .bool true => "True"
  | .bool false => "False"
  | .num n => toString n
  | .str s => "'" ++ s ++ "'"
  | .arr xs => "[" ++ pyReprSeq xs ++ "]"
  | .obj fs => "\x7b" ++ pyReprFields fs ++ "\x7d"

/-- Comma-separated `repr`s of the items of a Python list. -/
def pyReprSeq : List JValue → String
  | [] => ""
  | [v] => v.pyRepr
  | v :: vs => v.pyRepr ++ ", " ++ pyReprSeq vs

/-- Comma-separated `'key': repr(value)` entries of a Python dict. -/
def pyReprFields : List (String × JValue) → String
  | [] => ""
  | [(k, v)] => "'" ++ k ++ "': " ++ v.pyRepr
  | (k, v) :: fs => "'" ++ k ++ "': " ++ v.pyRepr ++ ", " ++ pyReprFields fs

end

/-- Python `str(v)` of a JSON value. -/
def JValue.pyStr : JValue → String
  | .str s => s
  | v => v.pyRepr

/-- Python iteration over a JSON value: list elements, string characters,
dict keys, `TypeError` otherwise. -/
def JValue.pyIter : JValue → Except String (List JValue)
  | .arr xs => .ok xs
  | .str s => .ok (s.toList.map fun c => .str (String.singleton c))
  | .obj fs => .ok (fs.map fun p => .str p.1)
  | _ => .error "TypeError: object is not iterable"

/-- Items handed to `join` must each be a string. -/
def pyJoinItem : JValue → Except String String
  | .str s => .ok s
  | _ => .error "TypeError: sequence item: expected str instance"

/-- Check every iterated item in order, as `join` does. -/
def pyJoinItems : List JValue → Except String (List String)
  | [] => .ok []
  | x :: xs => do
      let s ← pyJoinItem x
      let rest ← pyJoinItems xs
      pure (s :: rest)

/-- Python `sep.join(v)`: iterate `v` and require every item a string. -/
def pyJoin (sep : String) (v : JValue) : Except String String := do
  let xs ← v.pyIter
  let strs ← pyJoinItems xs
  pure (String.intercalate sep strs)

/-- Python slicing `v[:n]` for strings and lists, `TypeError` otherwise. -/
def pySliceTo (n : Nat) : JValue → Except String JValue
  | .str s => .ok (.str (String.mk (s.toList.take n)))
  | .arr xs => .ok (.arr (xs.take n))
  | _ => .error "TypeError: object is not subscriptable"

/-- Python `d.get(k, dflt)` on a dict the program itself built (never raises). -/
def dictGet (d : List (String × JValue)) (k : String) (dflt : JValue) : JValue :=
  (d.lookup k).getD dflt

/-- Python `d[k]` on a dict the program itself built. -/
def dictIndex (d : List (String × JValue)) (k : String) : Except String JValue :=
  match d.lookup k with
  | some v => .ok v
  | none => .error ("KeyError: " ++ k)

/-- Python `"error" in gene_data` (dict key membership). -/
def hasErrorKey (d : List (String × JValue)) : Bool := d.any fun p => p.1 == "error"

/-- Keys of the success dict built by `search_gene` (step 3), in
insertion order. -/
def geneRecordKeys : List String :=
  ["name", "gene_id", "description", "summary", "chromosome",
   "map_location", "aliases", "mim_number", "organism", "gene_type"]

/-- Step 3 of `search_gene`: the `return { ... }` dict literal, each value
evaluated in source order inside the enclosing `try`. -/
def extract_fields (gene_name : String) (gene_id : JValue) (gene_info : JValue) :
    Except String (List (String × JValue)) := do
  let nameV ← gene_info.pyGet "name" (JValue.str gene_name)
  let descV ← gene_info.pyGet "description" (JValue.str "No description available")
  let sumV ← gene_info.pyGet "summary" (JValue.str "No summary available")
  let chrV ← gene_info.pyGet "chromosome" (JValue.str "Unknown")
  let mapV ← gene_info.pyGet "maplocation" (JValue.str "Unknown")
  let aliasCond ← gene_info.pyGet "otheraliases" JValue.null
  let aliasV ←
    if aliasCond.truthy then do
      let v ← gene_info.pyGet "otheraliases" (JValue.arr [])
      let s ← pyJoin ", " v
      pure (JValue.str s)
    else
      pure (JValue.str "None")
  let mimCond ← gene_info.pyGet "mim" JValue.null
  let mimV ←
    if mimCond.truthy then do
      let v ← gene_info.pyGet "mim" (JValue.arr [])
      let xs ← v.pyIter
      pure (JValue.str (String.intercalate ", " (xs.map JValue.pyStr)))
    else
      pure (JValue.str "Not available")
  let orgOuter ← gene_info.pyGet "organism" (JValue.obj [])
  let orgV ← orgOuter.pyGet "scientificname" (JValue.str "Homo sapiens")
  let gtV ← gene_info.pyGet "geneticsource" (JValue.str "Unknown")
  pure [("name", nameV), ("gene_id", gene_id), ("description", descV),
        ("summary", sumV), ("chromosome", chrV), ("map_location", mapV),
        ("aliases", aliasV), ("mim_number", mimV), ("organism", orgV),
        ("gene_type", gtV)]

/-- Body of the `try` block of `search_gene`.  `esearch` and `esummary`
are the outcomes of the two `requests.get(...).json()` calls. -/
def search_gene_body (gene_name : String) (esearch esummary : Except String JValue) :
    Except String (List (String × JValue)) := do
  let data ← esearch
  let esr ← data.index (JValue.str "esearchresult")
  let hasIdlist ← esr.hasKey "idlist"
  if !hasIdlist then
    pure [("error", JValue.str "Gene not found")]
  else do
    let idlist ← esr.index (JValue.str "idlist")
    if !idlist.truthy then
      pure [("error", JValue.str "Gene not found")]
    else do
      let gene_id ← idlist.index (JValue.num 0)
      let summary_data ← esummary
      let res ← summary_data.index (JValue.str "result")
      let gene_info ← res.index gene_id
      extract_fields gene_name gene_id gene_info

/-- Function `search_gene(gene_name)`: the `try` body with the `except Exception`
handler returning `{"error": str(e)}`. -/
def search_gene (gene_name : String) (esearch esummary : Except String JValue) :
    List (String × JValue) :=
  match search_gene_body gene_name esearch esummary with
  | .ok d => d
  | .error e => [("error", JValue.str e)]

/-- The prompt f-string of `create_ai_summary`, built inside the `try`
(raises when `gene_info['summary']` is a non-sliceable value). -/
def build_prompt (gene_info : List (String × JValue)) : Except String String := do
  let nameV := dictGet gene_info "name" (JValue.str "Unknown")
  let descV := dictGet gene_info "description" (JValue.str "No description")
  let sumV := dictGet gene_info "summary" (JValue.str "No details")
  let sliced ← pySliceTo 500 sumV
  pure ("You are a bioinformatics expert. Create a brief 3–4 sentence summary for researchers and clinicians.\n\nGene: "
    ++ nameV.pyStr ++ "\nDescription: " ++ descV.pyStr ++ "\nDetails: " ++ sliced.pyStr
    ++ "\n\nFocus on:\n1. What this gene does (functional role)\n2. Any disease connections\n3. Clinical significance\n\nKeep it concise and professional.")

/-- Body of the `try` block of `create_ai_summary`.  `chatResp` is the
outcome of `requests.post(...).json()` against the chat-completion API. -/
def create_ai_summary_body (gene_info : List (String × JValue))
    (chatResp : Except String JValue) : Except String (JValue × JValue) := do
  let _prompt ← build_prompt gene_info
  let result ← chatResp
  let hasChoices ← result.hasKey "choices"
  let cond ←
    if hasChoices then do
      let cs ← result.index (JValue.str "choices")
      let n ← cs.pyLen
      pure (decide (0 < n))
    else
      pure false
  if cond then do
    let cs ← result.index (JValue.str "choices")
    let c0 ← cs.index (JValue.num 0)
    let msg ← c0.index (JValue.str "message")
    let ai_text ← msg.index (JValue.str "content")
    let model_used ← result.pyGet "model" (JValue.str "Unknown Model")
    pure (ai_text, model_used)
  else do
    let errV ← result.pyGet "error" (JValue.obj [])
    let msgV ← errV.pyGet "message" (JValue.str "Unknown error")
    pure (JValue.str ("Could not generate AI summary. Error: " ++ msgV.pyStr),
          JValue.str "Error")

/-- Function `create_ai_summary(gene_info)`: the `try` body with the
`except Exception` handler returning the degraded pair. -/
def create_ai_summary (gene_info : List (String × JValue))
    (chatResp : Except String JValue) : JValue × JValue :=
  match create_ai_summary_body gene_info chatResp with
  | .ok p => p
  | .error e => (JValue.str ("AI summary unavailable: " ++ e), JValue.str "Error")

/-- Models `request.get_json()` followed by `data.get(field, '')`: `none` stands for
a parse result that is no object (`None`), on which `.get` raises. -/
def get_json_field (reqBody : Option JValue) (field : String) : Except String JValue :=
  match reqBody with
  | none => .error "AttributeError: NoneType object has no attribute get"
  | some v => v.pyGet field (JValue.str "")

/-- Python `s.strip()`: drop leading and trailing whitespace. -/
def pyStrip (s : String) : String :=
  String.mk (((s.toList.dropWhile Char.isWhitespace).reverse.dropWhile Char.isWhitespace).reverse)

/-- Python `str.upper()` on one character (ASCII range). -/
def pyUpperChar (c : Char) : Char :=
  if 97 ≤ c.toNat && c.toNat ≤ 122 then Char.ofNat (c.toNat - 32) else c

/-- Python `s.upper()`. -/
def pyUpper (s : String) : String := String.mk (s.toList.map pyUpperChar)

/-- Models `data.get(field, '').strip().upper()` (string methods raise on a
non-string field value). -/
def stripUpperField : JValue → Except String String
  | .str s => .ok (pyUpper (pyStrip s))
  | _ => .error "AttributeError: object has no attribute strip"

/-- Symbol extraction shared by both handlers (differing only in the
request-body field name). -/
def extract_symbol (reqBody : Option JValue) (field : String) : Except String String := do
  let g ← get_json_field reqBody field
  stripUpperField g

/-- Outcome of one handler invocation: HTTP status, JSON response body,
and how many times the Resolver (`search_gene`) and the Summarizer
(`create_ai_summary`) were invoked while serving the request. -/
structure RouterResult where
  status : Nat
  body : List (String × JValue)
  resolverCalls : Nat
  summarizerCalls : Nat

/-- The `/search` handler.  `.error e` models an unhandled exception
escaping the handler. -/
def search_handler (reqBody : Option JValue)
    (esearch esummary chatResp : Except String JValue) :
    Except String RouterResult := do
  let gene_name ← extract_symbol reqBody "gene"
  if gene_name = "" then
    pure ⟨400, [("error", JValue.str "Please enter a gene name")], 0, 0⟩
  else
    let gene_data := search_gene gene_name esearch esummary
    if hasErrorKey gene_data then
      pure ⟨404, gene_data, 1, 0⟩
    else do
      let ai := create_ai_summary gene_data chatResp
      let nameV ← dictIndex gene_data "name"
      let idV ← dictIndex gene_data "gene_id"
      let descV ← dictIndex gene_data "description"
      let sumV ← dictIndex gene_data "summary"
      let chrV ← dictIndex gene_data "chromosome"
      let mapV ← dictIndex gene_data "map_location"
      let alV ← dictIndex gene_data "aliases"
      let mimV ← dictIndex gene_data "mim_number"
      let orgV ← dictIndex gene_data "organism"
      let gtV ← dictIndex gene_data "gene_type"
      pure ⟨200,
        [("success", JValue.bool true), ("gene", nameV), ("gene_id", idV),
         ("description", descV), ("summary", sumV), ("chromosome", chrV),
         ("map_location", mapV), ("aliases", alV), ("mim_number", mimV),
         ("organism", orgV), ("gene_type", gtV), ("ai_summary", ai.1),
         ("source", JValue.str "NCBI Gene Database"), ("ai_model", ai.2)],
        1, 1⟩

/-- The `/api/search` handler (CRT frontend shape). -/
def api_search_handler (reqBody : Option JValue)
    (esearch esummary chatResp : Except String JValue) :
    Except String RouterResult := do
  let gene_name ← extract_symbol reqBody "gene_name"
  if gene_name = "" then
    pure ⟨400, [("error", JValue.str "No gene name provided")], 0, 0⟩
  else
    let gene_data := search_gene gene_name esearch esummary
    if hasErrorKey gene_data then
      pure ⟨404, [("error", JValue.str ("Gene " ++ gene_name ++ " not found in database"))], 1, 0⟩
    else do
      let ai := create_ai_summary gene_data chatResp
      let nameV ← dictIndex gene_data "name"
      let descV ← dictIndex gene_data "description"
      let idV ← dictIndex gene_data "gene_id"
      let chrV ← dictIndex gene_data "chromosome"
      let mapV ← dictIndex gene_data "map_location"
      let sumV ← dictIndex gene_data "summary"
      let alV ← dictIndex gene_data "aliases"
      let mimV ← dictIndex gene_data "mim_number"
      let orgV ← dictIndex gene_data "organism"
      let gtV ← dictIndex gene_data "gene_type"
      pure ⟨200,
        [("symbol", nameV), ("name", descV), ("gene_id", idV),
         ("chromosome", chrV), ("location", mapV), ("description", sumV),
         ("aliases", alV), ("mim_number", mimV), ("organism", orgV),
         ("gene_type", gtV), ("ai_summary", ai.1), ("ai_model", ai.2)],
        1, 1⟩

/-! ## Shape lemmas about the Resolver -/

/-- A successful `extract_fields` always yields the ten-key record, in
source order, with the `gene_id` value passed through unchanged. -/
theorem extract_fields_ok_shape (n : String) (i gi : JValue) (d : List (String × JValue))
    (h : extract_fields n i gi = Except.ok d) :
    ∃ v1 v3 v4 v5 v6 v7 v8 v9 v10,
      d = [("name", v1), ("gene_id", i), ("description", v3), ("summary", v4),
           ("chromosome", v5), ("map_location", v6), ("aliases", v7),
           ("mim_number", v8), ("organism", v9), ("gene_type", v10)] := by
  unfold extract_fields at h
  simp only [bind, Except.bind, pure, Except.pure] at h
  repeat' split at h
  all_goals cases h
  all_goals exact ⟨_, _, _, _, _, _, _, _, _, rfl⟩

/-- Every value of `search_gene` is either a one-key error dict or the
ten-key gene record. -/
theorem search_gene_shape (n : String) (es esum : Except String JValue) :
    (∃ e, search_gene n es esum = [("error", JValue.str e)]) ∨
    (∃ v1 v2 v3 v4 v5 v6 v7 v8 v9 v10,
      search_gene n es esum =
        [("name", v1), ("gene_id", v2), ("description", v3), ("summary", v4),
         ("chromosome", v5), ("map_location", v6), ("aliases", v7),
         ("mim_number", v8), ("organism", v9), ("gene_type", v10)]) := by
  unfold search_gene
  cases hb : search_gene_body n es esum with
  | error e => exact Or.inl ⟨e, rfl⟩
  | ok d =>
    unfold search_gene_body at hb
    simp only [bind, Except.bind, pure, Except.pure] at hb
    repeat' split at hb
    all_goals try cases hb
    all_goals try exact Or.inl ⟨"Gene not found", rfl⟩
    all_goals obtain ⟨v1, v3, v4, v5, v6, v7, v8, v9, v10, rfl⟩ :=
      extract_fields_ok_shape _ _ _ _ hb
    all_goals exact Or.inr ⟨v1, _, v3, v4, v5, v6, v7, v8, v9, v10, rfl⟩

/-! ## Case lemmas about the two handlers -/

/-- Endpoint `/search` with an empty (post-strip) symbol: client error, no calls. -/
theorem search_handler_empty (reqBody : Option JValue) (es esum chat : Except String JValue)
    (h : extract_symbol reqBody "gene" = Except.ok "") :
    search_handler reqBody es esum chat =
      Except.ok ⟨400, [("error", JValue.str "Please enter a gene name")], 0, 0⟩ := by
  unfold search_handler
  rw [h]
  rfl

/-- Endpoint `/search` when the Resolver returns an error dict: 404, that dict as
the response body, and no Summarizer call. -/
theorem search_handler_notfound (reqBody : Option JValue) (es esum chat : Except String JValue)
    (g e : String) (h : extract_symbol reqBody "gene" = Except.ok g) (hg : g ≠ "")
    (herr : search_gene g es esum = [("error", JValue.str e)]) :
    search_handler reqBody es esum chat =
      Except.ok ⟨404, [("error", JValue.str e)], 1, 0⟩ := by
  unfold search_handler
  rw [h]
  simp only [bind, Except.bind]
  rw [if_neg hg, herr]
  rfl

/-- Endpoint `/search` when the Resolver returns the ten-key record: 200, the
merged payload, one Resolver call and one Summarizer call. -/
theorem search_handler_success (reqBody : Option JValue) (es esum chat : Except String JValue)
    (g : String) (v1 v2 v3 v4 v5 v6 v7 v8 v9 v10 : JValue)
    (h : extract_symbol reqBody "gene" = Except.ok g) (hg : g ≠ "")
    (hrec : search_gene g es esum =
      [("name", v1), ("gene_id", v2), ("description", v3), ("summary", v4),
       ("chromosome", v5), ("map_location", v6), ("aliases", v7),
       ("mim_number", v8), ("organism", v9), ("gene_type", v10)]) :
    search_handler reqBody es esum chat =
      Except.ok ⟨200,
        [("success", JValue.bool true), ("gene", v1), ("gene_id", v2),
         ("description", v3), ("summary", v4), ("chromosome", v5),
         ("map_location", v6), ("aliases", v7), ("mim_number", v8),
         ("organism", v9), ("gene_type", v10),
         ("ai_summary", (create_ai_summary (search_gene g es esum) chat).1),
         ("source", JValue.str "NCBI Gene Database"),
         ("ai_model", (create_ai_summary (search_gene g es esum) chat).2)],
        1, 1⟩ := by
  unfold search_handler
  rw [h]
  simp only [bind, Except.bind]
  rw [if_neg hg]
  rw [hrec]
  rfl

/-- Endpoint `/api/search` with an empty (post-strip) symbol: client error, no calls. -/
theorem api_search_handler_empty (reqBody : Option JValue) (es esum chat : Except String JValue)
    (h : extract_symbol reqBody "gene_name" = Except.ok "") :
    api_search_handler reqBody es esum chat =
      Except.ok ⟨400, [("error", JValue.str "No gene name provided")], 0, 0⟩ := by
  unfold api_search_handler
  rw [h]
  rfl

/-- Endpoint `/api/search` when the Resolver returns an error dict: 404 with the
endpoint-specific message interpolating the symbol, no Summarizer call. -/
theorem api_search_handler_notfound (reqBody : Option JValue) (es esum chat : Except String JValue)
    (g e : String) (h : extract_symbol reqBody "gene_name" = Except.ok g) (hg : g ≠ "")
    (herr : search_gene g es esum = [("error", JValue.str e)]) :
    api_search_handler reqBody es esum chat =
      Except.ok ⟨404, [("error", JValue.str ("Gene " ++ g ++ " not found in database"))], 1, 0⟩ := by
  unfold api_search_handler
  rw [h]
  simp only [bind, Except.bind]
  rw [if_neg hg, herr]
  rfl

/-- Endpoint `/api/search` when the Resolver returns the ten-key record: 200, the
CRT-shaped payload, one Resolver call and one Summarizer call. -/
theorem api_search_handler_success (reqBody : Option JValue) (es esum chat : Except String JValue)
    (g : String) (v1 v2 v3 v4 v5 v6 v7 v8 v9 v10 : JValue)
    (h : extract_symbol reqBody "gene_name" = Except.ok g) (hg : g ≠ "")
    (hrec : search_gene g es esum =
      [("name", v1), ("gene_id", v2), ("description", v3), ("summary", v4),
       ("chromosome", v5), ("map_location", v6), ("aliases", v7),
       ("mim_number", v8), ("organism", v9), ("gene_type", v10)]) :
    api_search_handler reqBody es esum chat =
      Except.ok ⟨200,
        [("symbol", v1), ("name", v3), ("gene_id", v2), ("chromosome", v5),
         ("location", v6), ("description", v4), ("aliases", v7),
         ("mim_number", v8), ("organism", v9), ("gene_type", v10),
         ("ai_summary", (create_ai_summary (search_gene g es esum) chat).1),
         ("ai_model", (create_ai_summary (search_gene g es esum) chat).2)],
        1, 1⟩ := by
  unfold api_search_handler
  rw [h]
  simp only [bind, Except.bind]
  rw [if_neg hg]
  rw [hrec]
  rfl

/-! ## Lemmas about the Summarizer -/

/-- Whatever happens to the chat call, a failed summarization yields the
degraded pair: some failure text plus the `"Error"` sentinel.  In
particular, when the chat call itself raises, the text carries an
underlying cause. -/
theorem create_ai_summary_chat_error (gi : List (String × JValue)) (e : String) :
    ∃ e', create_ai_summary gi (Except.error e) =
      (JValue.str ("AI summary unavailable: " ++ e'), JValue.str "Error") := by
  unfold create_ai_summary create_ai_summary_body
  cases hp : build_prompt gi with
  | error pe => exact ⟨pe, rfl⟩
  | ok p => exact ⟨e, rfl⟩

/-! ## Concrete fixtures (used by witnesses) -/

/-- A well-formed eSearch response for BRCA1. -/
def esFix : Except String JValue :=
  .ok (JValue.obj [("esearchresult", JValue.obj [("idlist", JValue.arr [JValue.str "672"])])])

/-- An eSearch response whose `idlist` is empty (symbol not found). -/
def esEmptyFix : Except String JValue :=
  .ok (JValue.obj [("esearchresult", JValue.obj [("idlist", JValue.arr [])])])

/-- A well-formed eSummary response for gene id 672. -/
def esumFix : Except String JValue :=
  .ok (JValue.obj [("result", JValue.obj [("672", JValue.obj
    [("name", JValue.str "BRCA1"),
     ("description", JValue.str "BRCA1 DNA repair associated"),
     ("summary", JValue.str "This gene encodes a tumor suppressor."),
     ("chromosome", JValue.str "17"),
     ("maplocation", JValue.str "17q21.31"),
     ("otheraliases", JValue.arr [JValue.str "IRIS", JValue.str "PSCP"]),
     ("mim", JValue.arr [JValue.num 113705]),
     ("organism", JValue.obj [("scientificname", JValue.str "Homo sapiens")]),
     ("geneticsource", JValue.str "protein-coding")])])])

/-- The gene record `search_gene` builds from the two fixtures above. -/
def brca1Record : List (String × JValue) :=
  [("name", JValue.str "BRCA1"), ("gene_id", JValue.str "672"),
   ("description", JValue.str "BRCA1 DNA repair associated"),
   ("summary", JValue.str "This gene encodes a tumor suppressor."),
   ("chromosome", JValue.str "17"), ("map_location", JValue.str "17q21.31"),
   ("aliases", JValue.str "IRIS, PSCP"), ("mim_number", JValue.str "113705"),
   ("organism", JValue.str "Homo sapiens"), ("gene_type", JValue.str "protein-coding")]

/-- A well-formed chat-completion response. -/
def chatFix : Except String JValue :=
  .ok (JValue.obj [("choices", JValue.arr [JValue.obj [("message", JValue.obj
    [("content", JValue.str "BRCA1 repairs DNA.")])]]),
    ("model", JValue.str "anthropic/claude-3.5-sonnet")])

/-! ## Gating of the Summarizer behind successful resolution -/

/-- Endpoint `/search`: the Summarizer runs exactly when resolution succeeded, and
a failed resolution yields a 404 without a Summarizer call. -/
theorem search_handler_gating (reqBody : Option JValue) (es esum chat : Except String JValue)
    (g : String) (r : RouterResult)
    (h : extract_symbol reqBody "gene" = Except.ok g)
    (hr : search_handler reqBody es esum chat = Except.ok r) :
    ((g ≠ "" ∧ hasErrorKey (search_gene g es esum) = true) →
      r.status = 404 ∧ r.summarizerCalls = 0) ∧
    (r.summarizerCalls = 1 ↔ (g ≠ "" ∧ hasErrorKey (search_gene g es esum) = false)) := by
  by_cases hg : g = ""
  · subst hg
    rw [search_handler_empty reqBody es esum chat h] at hr
    cases hr
    constructor
    · rintro ⟨hne, -⟩; exact absurd rfl hne
    · simp
  · rcases search_gene_shape g es esum with ⟨e', he⟩ | ⟨v1, v2, v3, v4, v5, v6, v7, v8, v9, v10, hrec⟩
    · rw [search_handler_notfound reqBody es esum chat g e' h hg he] at hr
      cases hr
      refine ⟨fun _ => ⟨rfl, rfl⟩, ?_⟩
      rw [he]
      simp [hasErrorKey]
    · rw [search_handler_success reqBody es esum chat g v1 v2 v3 v4 v5 v6 v7 v8 v9 v10 h hg hrec] at hr
      cases hr
      constructor
      · rintro ⟨-, herr⟩
        rw [hrec] at herr
        simp [hasErrorKey] at herr
      · rw [hrec]
        simp [hasErrorKey, hg]

/-- Endpoint `/api/search`: same gating as `/search`. -/
theorem api_search_handler_gating (reqBody : Option JValue) (es esum chat : Except String JValue)
    (g : String) (r : RouterResult)
    (h : extract_symbol reqBody "gene_name" = Except.ok g)
    (hr : api_search_handler reqBody es esum chat = Except.ok r) :
    ((g ≠ "" ∧ hasErrorKey (search_gene g es esum) = true) →
      r.status = 404 ∧ r.summarizerCalls = 0) ∧
    (r.summarizerCalls = 1 ↔ (g ≠ "" ∧ hasErrorKey (search_gene g es esum) = false)) := by
  by_cases hg : g = ""
  · subst hg
    rw [api_search_handler_empty reqBody es esum chat h] at hr
    cases hr
    constructor
    · rintro ⟨hne, -⟩; exact absurd rfl hne
    · simp
  · rcases search_gene_shape g es esum with ⟨e', he⟩ | ⟨v1, v2, v3, v4, v5, v6, v7, v8, v9, v10, hrec⟩
    · rw [api_search_handler_notfound reqBody es esum chat g e' h hg he] at hr
      cases hr
      refine ⟨fun _ => ⟨rfl, rfl⟩, ?_⟩
      rw [he]
      simp [hasErrorKey]
    · rw [api_search_handler_success reqBody es esum chat g v1 v2 v3 v4 v5 v6 v7 v8 v9 v10 h hg hrec] at hr
      cases hr
      constructor
      · rintro ⟨-, herr⟩
        rw [hrec] at herr
        simp [hasErrorKey] at herr
      · rw [hrec]
        simp [hasErrorKey, hg]

/-! ## Claim theorems -/

/-- C1: on either search endpoint, when the Resolver reports failure the
Summarizer is never invoked and the response has not-found status; the
Summarizer is invoked exactly once iff resolution was attempted and
succeeded. -/
theorem c1_summarizer_only_after_resolution
    (b1 b2 : Option JValue) (es1 esum1 chat1 es2 esum2 chat2 : Except String JValue)
    (g1 g2 : String) (r1 r2 : RouterResult)
    (h1 : extract_symbol b1 "gene" = Except.ok g1)
    (hr1 : search_handler b1 es1 esum1 chat1 = Except.ok r1)
    (h2 : extract_symbol b2 "gene_name" = Except.ok g2)
    (hr2 : api_search_handler b2 es2 esum2 chat2 = Except.ok r2) :
    ((g1 ≠ "" ∧ hasErrorKey (search_gene g1 es1 esum1) = true) →
      r1.status = 404 ∧ r1.summarizerCalls = 0) ∧
    (r1.summarizerCalls = 1 ↔ (g1 ≠ "" ∧ hasErrorKey (search_gene g1 es1 esum1) = false)) ∧
    ((g2 ≠ "" ∧ hasErrorKey (search_gene g2 es2 esum2) = true) →
      r2.status = 404 ∧ r2.summarizerCalls = 0) ∧
    (r2.summarizerCalls = 1 ↔ (g2 ≠ "" ∧ hasErrorKey (search_gene g2 es2 esum2) = false)) := by
  obtain ⟨a1, a2⟩ := search_handler_gating b1 es1 esum1 chat1 g1 r1 h1 hr1
  obtain ⟨b1', b2'⟩ := api_search_handler_gating b2 es2 esum2 chat2 g2 r2 h2 hr2
  exact ⟨a1, a2, b1', b2'⟩

/-- Witness for C1: a successful `/search` resolution (Summarizer runs
once) next to a failed `/api/search` resolution (404, no Summarizer). -/
theorem c1_summarizer_only_after_resolution_witness :
    ((1 : Nat) = 1 ↔ ("BRCA1" ≠ "" ∧ hasErrorKey (search_gene "BRCA1" esFix esumFix) = false)) ∧
    (("ZZZ" ≠ "" ∧ hasErrorKey (search_gene "ZZZ" esEmptyFix esumFix) = true) →
      (404 : Nat) = 404 ∧ (0 : Nat) = 0) :=
  ⟨(c1_summarizer_only_after_resolution
      (some (JValue.obj [("gene", JValue.str " brca1 ")]))
      (some (JValue.obj [("gene_name", JValue.str "ZZZ")]))
      esFix esumFix chatFix esEmptyFix esumFix chatFix
      "BRCA1" "ZZZ"
      ⟨200,
        [("success", JValue.bool true), ("gene", JValue.str "BRCA1"), ("gene_id", JValue.str "672"),
         ("description", JValue.str "BRCA1 DNA repair associated"),
         ("summary", JValue.str "This gene encodes a tumor suppressor."),
         ("chromosome", JValue.str "17"), ("map_location", JValue.str "17q21.31"),
         ("aliases", JValue.str "IRIS, PSCP"), ("mim_number", JValue.str "113705"),
         ("organism", JValue.str "Homo sapiens"), ("gene_type", JValue.str "protein-coding"),
         ("ai_summary", JValue.str "BRCA1 repairs DNA."), ("source", JValue.str "NCBI Gene Database"),
         ("ai_model", JValue.str "anthropic/claude-3.5-sonnet")], 1, 1⟩
      ⟨404, [("error", JValue.str "Gene ZZZ not found in database")], 1, 0⟩
      rfl rfl rfl rfl).2.1,
   (c1_summarizer_only_after_resolution
      (some (JValue.obj [("gene", JValue.str " brca1 ")]))
      (some (JValue.obj [("gene_name", JValue.str "ZZZ")]))
      esFix esumFix chatFix esEmptyFix esumFix chatFix
      "BRCA1" "ZZZ"
      ⟨200,
        [("success", JValue.bool true), ("gene", JValue.str "BRCA1"), ("gene_id", JValue.str "672"),
         ("description", JValue.str "BRCA1 DNA repair associated"),
         ("summary", JValue.str "This gene encodes a tumor suppressor."),
         ("chromosome", JValue.str "17"), ("map_location", JValue.str "17q21.31"),
         ("aliases", JValue.str "IRIS, PSCP"), ("mim_number", JValue.str "113705"),
         ("organism", JValue.str "Homo sapiens"), ("gene_type", JValue.str "protein-coding"),
         ("ai_summary", JValue.str "BRCA1 repairs DNA."), ("source", JValue.str "NCBI Gene Database"),
         ("ai_model", JValue.str "anthropic/claude-3.5-sonnet")], 1, 1⟩
      ⟨404, [("error", JValue.str "Gene ZZZ not found in database")], 1, 0⟩
      rfl rfl rfl rfl).2.2.1⟩

/-- C2: for every input symbol and every behavior of the two upstream
gene-database calls, `search_gene` never raises to its caller (it is a
total function into response dicts): it returns either the full ten-key
gene record or an error dict; when the first upstream call raises, the
error dict carries the underlying cause as a string. -/
theorem c2_resolver_never_raises (n : String) (es esum : Except String JValue) (e : String) :
    ((search_gene n es esum).map Prod.fst = ["error"] ∨
     (search_gene n es esum).map Prod.fst = geneRecordKeys) ∧
    search_gene n (Except.error e) esum = [("error", JValue.str e)] := by
  refine ⟨?_, rfl⟩
  rcases search_gene_shape n es esum with ⟨e', he⟩ | ⟨v1, v2, v3, v4, v5, v6, v7, v8, v9, v10, hr⟩
  · rw [he]; exact Or.inl rfl
  · rw [hr]; exact Or.inr rfl

/-- C9: discriminator invariant of `search_gene`: a failure result is a
dict containing the key `"error"`; a success result is a dict with
exactly the ten metadata keys and never the key `"error"` — so the
routers' `"error" in gene_data` test exactly separates the two. -/
theorem c9_error_key_discriminates (n : String) (es esum : Except String JValue) :
    (∃ e, search_gene n es esum = [("error", JValue.str e)] ∧
      hasErrorKey (search_gene n es esum) = true) ∨
    ((search_gene n es esum).map Prod.fst = geneRecordKeys ∧
      hasErrorKey (search_gene n es esum) = false ∧
      (search_gene n es esum).lookup "error" = none) := by
  rcases search_gene_shape n es esum with ⟨e', he⟩ | ⟨v1, v2, v3, v4, v5, v6, v7, v8, v9, v10, hr⟩
  · rw [he]; exact Or.inl ⟨e', rfl, rfl⟩
  · rw [hr]; exact Or.inr ⟨rfl, rfl, rfl⟩

/-- C3: `create_ai_summary` never raises; on a chat-call exception the
text incorporates the cause and the model field is the sentinel
`"Error"`; on a response with no usable choice list the text
incorporates the upstream error message when available (`"Unknown
error"` otherwise) and the model field is again `"Error"`. -/
theorem c3_summarizer_failure_contract (gi : List (String × JValue))
    (hp : ∃ p, build_prompt gi = Except.ok p) :
    (∀ e, create_ai_summary gi (Except.error e) =
      (JValue.str ("AI summary unavailable: " ++ e), JValue.str "Error")) ∧
    (∀ m, create_ai_summary gi (Except.ok (JValue.obj
        [("choices", JValue.arr []),
         ("error", JValue.obj [("message", JValue.str m)])])) =
      (JValue.str ("Could not generate AI summary. Error: " ++ m), JValue.str "Error")) ∧
    create_ai_summary gi (Except.ok (JValue.obj [])) =
      (JValue.str ("Could not generate AI summary. Error: Unknown error"), JValue.str "Error") := by
  obtain ⟨p, hp⟩ := hp
  refine ⟨fun e => ?_, fun m => ?_, ?_⟩
  all_goals unfold create_ai_summary create_ai_summary_body
  all_goals rw [hp]
  all_goals rfl

/-- Witness for C3 at the empty gene dict and concrete failures. -/
theorem c3_summarizer_failure_contract_witness :
    create_ai_summary [] (Except.error "Connection timed out") =
      (JValue.str "AI summary unavailable: Connection timed out", JValue.str "Error") ∧
    create_ai_summary [] (Except.ok (JValue.obj
        [("choices", JValue.arr []),
         ("error", JValue.obj [("message", JValue.str "invalid api key")])])) =
      (JValue.str "Could not generate AI summary. Error: invalid api key", JValue.str "Error") :=
  ⟨(c3_summarizer_failure_contract [] ⟨_, rfl⟩).1 "Connection timed out",
   (c3_summarizer_failure_contract [] ⟨_, rfl⟩).2.1 "invalid api key"⟩

/-- C10: a request whose body parses to no JSON object makes both
handlers raise an unhandled `AttributeError` while reading the symbol
field, rather than returning the client-error response. -/
theorem c10_missing_body_faults (es esum chat es2 esum2 chat2 : Except String JValue) :
    search_handler none es esum chat =
      Except.error "AttributeError: NoneType object has no attribute get" ∧
    api_search_handler none es2 esum2 chat2 =
      Except.error "AttributeError: NoneType object has no attribute get" :=
  ⟨rfl, rfl⟩

/-- C4: when resolution succeeds but the narrative call raises (failure
or timeout), both endpoints still answer with success status, every
resolved metadata field present, and a visible failure message in the
narrative field together with the `"Error"` model sentinel. -/
theorem c4_degraded_payload_on_narrative_failure
    (b1 b2 : Option JValue) (es1 esum1 es2 esum2 : Except String JValue) (e1 e2 : String)
    (g1 g2 : String) (v1 v2 v3 v4 v5 v6 v7 v8 v9 v10 w1 w2 w3 w4 w5 w6 w7 w8 w9 w10 : JValue)
    (h1 : extract_symbol b1 "gene" = Except.ok g1) (hg1 : g1 ≠ "")
    (hrec1 : search_gene g1 es1 esum1 =
      [("name", v1), ("gene_id", v2), ("description", v3), ("summary", v4),
       ("chromosome", v5), ("map_location", v6), ("aliases", v7),
       ("mim_number", v8), ("organism", v9), ("gene_type", v10)])
    (h2 : extract_symbol b2 "gene_name" = Except.ok g2) (hg2 : g2 ≠ "")
    (hrec2 : search_gene g2 es2 esum2 =
      [("name", w1), ("gene_id", w2), ("description", w3), ("summary", w4),
       ("chromosome", w5), ("map_location", w6), ("aliases", w7),
       ("mim_number", w8), ("organism", w9), ("gene_type", w10)]) :
    (∃ m1, search_handler b1 es1 esum1 (Except.error e1) =
      Except.ok ⟨200,
        [("success", JValue.bool true), ("gene", v1), ("gene_id", v2),
         ("description", v3), ("summary", v4), ("chromosome", v5),
         ("map_location", v6), ("aliases", v7), ("mim_number", v8),
         ("organism", v9), ("gene_type", v10),
         ("ai_summary", JValue.str ("AI summary unavailable: " ++ m1)),
         ("source", JValue.str "NCBI Gene Database"),
         ("ai_model", JValue.str "Error")], 1, 1⟩) ∧
    (∃ m2, api_search_handler b2 es2 esum2 (Except.error e2) =
      Except.ok ⟨200,
        [("symbol", w1), ("name", w3), ("gene_id", w2), ("chromosome", w5),
         ("location", w6), ("description", w4), ("aliases", w7),
         ("mim_number", w8), ("organism", w9), ("gene_type", w10),
         ("ai_summary", JValue.str ("AI summary unavailable: " ++ m2)),
         ("ai_model", JValue.str "Error")], 1, 1⟩) := by
  constructor
  · obtain ⟨m1, hm1⟩ := create_ai_summary_chat_error
      [("name", v1), ("gene_id", v2), ("description", v3), ("summary", v4),
       ("chromosome", v5), ("map_location", v6), ("aliases", v7),
       ("mim_number", v8), ("organism", v9), ("gene_type", v10)] e1
    refine ⟨m1, ?_⟩
    rw [search_handler_success b1 es1 esum1 (Except.error e1) g1
        v1 v2 v3 v4 v5 v6 v7 v8 v9 v10 h1 hg1 hrec1, hrec1, hm1]
  · obtain ⟨m2, hm2⟩ := create_ai_summary_chat_error
      [("name", w1), ("gene_id", w2), ("description", w3), ("summary", w4),
       ("chromosome", w5), ("map_location", w6), ("aliases", w7),
       ("mim_number", w8), ("organism", w9), ("gene_type", w10)] e2
    refine ⟨m2, ?_⟩
    rw [api_search_handler_success b2 es2 esum2 (Except.error e2) g2
        w1 w2 w3 w4 w5 w6 w7 w8 w9 w10 h2 hg2 hrec2, hrec2, hm2]

/-- Witness for C4 at the BRCA1 fixtures with a timed-out chat call. -/
theorem c4_degraded_payload_on_narrative_failure_witness :
    (∃ m1, search_handler (some (JValue.obj [("gene", JValue.str "BRCA1")])) esFix esumFix
        (Except.error "Read timed out") =
      Except.ok ⟨200,
        [("success", JValue.bool true), ("gene", JValue.str "BRCA1"),
         ("gene_id", JValue.str "672"),
         ("description", JValue.str "BRCA1 DNA repair associated"),
         ("summary", JValue.str "This gene encodes a tumor suppressor."),
         ("chromosome", JValue.str "17"), ("map_location", JValue.str "17q21.31"),
         ("aliases", JValue.str "IRIS, PSCP"), ("mim_number", JValue.str "113705"),
         ("organism", JValue.str "Homo sapiens"), ("gene_type", JValue.str "protein-coding"),
         ("ai_summary", JValue.str ("AI summary unavailable: " ++ m1)),
         ("source", JValue.str "NCBI Gene Database"),
         ("ai_model", JValue.str "Error")], 1, 1⟩) ∧
    (∃ m2, api_search_handler (some (JValue.obj [("gene_name", JValue.str "BRCA1")])) esFix esumFix
        (Except.error "Read timed out") =
      Except.ok ⟨200,
        [("symbol", JValue.str "BRCA1"), ("name", JValue.str "BRCA1 DNA repair associated"),
         ("gene_id", JValue.str "672"), ("chromosome", JValue.str "17"),
         ("location", JValue.str "17q21.31"),
         ("description", JValue.str "This gene encodes a tumor suppressor."),
         ("aliases", JValue.str "IRIS, PSCP"), ("mim_number", JValue.str "113705"),
         ("organism", JValue.str "Homo sapiens"), ("gene_type", JValue.str "protein-coding"),
         ("ai_summary", JValue.str ("AI summary unavailable: " ++ m2)),
         ("ai_model", JValue.str "Error")], 1, 1⟩) :=
  c4_degraded_payload_on_narrative_failure
    (some (JValue.obj [("gene", JValue.str "BRCA1")]))
    (some (JValue.obj [("gene_name", JValue.str "BRCA1")]))
    esFix esumFix esFix esumFix "Read timed out" "Read timed out" "BRCA1" "BRCA1"
    (JValue.str "BRCA1") (JValue.str "672") (JValue.str "BRCA1 DNA repair associated")
    (JValue.str "This gene encodes a tumor suppressor.") (JValue.str "17")
    (JValue.str "17q21.31") (JValue.str "IRIS, PSCP") (JValue.str "113705")
    (JValue.str "Homo sapiens") (JValue.str "protein-coding")
    (JValue.str "BRCA1") (JValue.str "672") (JValue.str "BRCA1 DNA repair associated")
    (JValue.str "This gene encodes a tumor suppressor.") (JValue.str "17")
    (JValue.str "17q21.31") (JValue.str "IRIS, PSCP") (JValue.str "113705")
    (JValue.str "Homo sapiens") (JValue.str "protein-coding")
    rfl (by decide) rfl rfl (by decide) rfl

/-- C5: a request whose symbol field is a whitespace-only string gets a
400 client error with an explanatory message from both endpoints, with
zero Resolver and zero Summarizer invocations. -/
theorem c5_blank_symbol_rejected_before_calls
    (b1 b2 : Option JValue) (es1 esum1 chat1 es2 esum2 chat2 : Except String JValue)
    (s t : String)
    (h1 : get_json_field b1 "gene" = Except.ok (JValue.str s)) (hs : pyStrip s = "")
    (h2 : get_json_field b2 "gene_name" = Except.ok (JValue.str t)) (ht : pyStrip t = "") :
    search_handler b1 es1 esum1 chat1 =
      Except.ok ⟨400, [("error", JValue.str "Please enter a gene name")], 0, 0⟩ ∧
    api_search_handler b2 es2 esum2 chat2 =
      Except.ok ⟨400, [("error", JValue.str "No gene name provided")], 0, 0⟩ := by
  have e1 : extract_symbol b1 "gene" = Except.ok "" := by
    unfold extract_symbol
    rw [h1]
    simp only [bind, Except.bind, stripUpperField, hs]
    rfl
  have e2 : extract_symbol b2 "gene_name" = Except.ok "" := by
    unfold extract_symbol
    rw [h2]
    simp only [bind, Except.bind, stripUpperField, ht]
    rfl
  exact ⟨search_handler_empty b1 es1 esum1 chat1 e1,
         api_search_handler_empty b2 es2 esum2 chat2 e2⟩

/-- Witness for C5 at whitespace-only and empty symbol fields. -/
theorem c5_blank_symbol_rejected_before_calls_witness :
    search_handler (some (JValue.obj [("gene", JValue.str "   ")])) esFix esumFix chatFix =
      Except.ok ⟨400, [("error", JValue.str "Please enter a gene name")], 0, 0⟩ ∧
    api_search_handler (some (JValue.obj [("gene_name", JValue.str "")])) esFix esumFix chatFix =
      Except.ok ⟨400, [("error", JValue.str "No gene name provided")], 0, 0⟩ :=
  c5_blank_symbol_rejected_before_calls
    (some (JValue.obj [("gene", JValue.str "   ")]))
    (some (JValue.obj [("gene_name", JValue.str "")]))
    esFix esumFix chatFix esFix esumFix chatFix "   " ""
    rfl rfl rfl rfl

/-- Reduction of `>>=` on an `Except.ok` (used to push `do` blocks). -/
theorem ok_bind {ε α β : Type} (a : α) (f : α → Except ε β) :
    (Except.ok a : Except ε α) >>= f = f a := rfl

/-- Joining a list of strings succeeds item by item. -/
theorem pyJoinItems_strs (al : List String) :
    pyJoinItems (al.map JValue.str) = Except.ok al := by
  induction al with
  | nil => rfl
  | cons a as ih => simp [pyJoinItems, pyJoinItem, ih, ok_bind]

/-- Joining a Python list of strings is `String.intercalate`. -/
theorem pyJoin_strs (sep : String) (al : List String) :
    pyJoin sep (JValue.arr (al.map JValue.str)) = Except.ok (String.intercalate sep al) := by
  unfold pyJoin
  simp [JValue.pyIter, pyJoinItems_strs, ok_bind]

/-- Rendering `str(m)` of a JSON integer is its decimal string. -/
theorem pyStr_num (m : Int) : (JValue.num m).pyStr = toString m := rfl

/-- Function form of `pyStr_num`. -/
theorem pyStr_comp_num : (JValue.pyStr ∘ JValue.num) = (fun m : Int => toString m) :=
  funext fun _ => rfl

/-- Rendering `str(m)` over a list of JSON integers. -/
theorem map_pyStr_num (ms : List Int) :
    List.map JValue.pyStr (ms.map JValue.num) = ms.map toString := by
  induction ms with
  | nil => rfl
  | cons m mss ih => simp only [List.map_cons, ih]; rfl

/-- C6: permissive defaults of the Resolver's field extraction: absent
optional fields become explicit placeholder strings, empty alias/MIM
lists become `"None"`/`"Not available"`, non-empty ones are flattened to
a single comma-joined string, and a missing organism defaults to
`"Homo sapiens"`. -/
theorem c6_permissive_field_defaults (n : String) (i : JValue)
    (al : List String) (ms : List Int) (hal : al ≠ []) (hm : ms ≠ []) :
    extract_fields n i (JValue.obj []) = Except.ok
      [("name", JValue.str n), ("gene_id", i),
       ("description", JValue.str "No description available"),
       ("summary", JValue.str "No summary available"),
       ("chromosome", JValue.str "Unknown"), ("map_location", JValue.str "Unknown"),
       ("aliases", JValue.str "None"), ("mim_number", JValue.str "Not available"),
       ("organism", JValue.str "Homo sapiens"), ("gene_type", JValue.str "Unknown")] ∧
    extract_fields n i (JValue.obj [("otheraliases", JValue.arr []), ("mim", JValue.arr [])]) =
      Except.ok
      [("name", JValue.str n), ("gene_id", i),
       ("description", JValue.str "No description available"),
       ("summary", JValue.str "No summary available"),
       ("chromosome", JValue.str "Unknown"), ("map_location", JValue.str "Unknown"),
       ("aliases", JValue.str "None"), ("mim_number", JValue.str "Not available"),
       ("organism", JValue.str "Homo sapiens"), ("gene_type", JValue.str "Unknown")] ∧
    extract_fields n i (JValue.obj
        [("otheraliases", JValue.arr (al.map JValue.str)),
         ("mim", JValue.arr (ms.map JValue.num))]) = Except.ok
      [("name", JValue.str n), ("gene_id", i),
       ("description", JValue.str "No description available"),
       ("summary", JValue.str "No summary available"),
       ("chromosome", JValue.str "Unknown"), ("map_location", JValue.str "Unknown"),
       ("aliases", JValue.str (String.intercalate ", " al)),
       ("mim_number", JValue.str (String.intercalate ", " (ms.map toString))),
       ("organism", JValue.str "Homo sapiens"), ("gene_type", JValue.str "Unknown")] := by
  refine ⟨rfl, rfl, ?_⟩
  obtain ⟨a, as, rfl⟩ := List.exists_cons_of_ne_nil hal
  obtain ⟨m, mss, rfl⟩ := List.exists_cons_of_ne_nil hm
  have hj := pyJoin_strs ", " (a :: as)
  simp only [List.map_cons] at hj
  unfold extract_fields
  simp [JValue.pyGet, List.lookup, ok_bind, JValue.truthy, JValue.pyIter,
        hj, pyStr_num, pyStr_comp_num, map_pyStr_num]

/-- Witness for C6 at a concrete alias and MIM list. -/
theorem c6_permissive_field_defaults_witness :
    extract_fields "BRCA1" (JValue.str "672") (JValue.obj
        [("otheraliases", JValue.arr ([ "IRIS", "PSCP" ].map JValue.str)),
         ("mim", JValue.arr ([(113705 : Int)].map JValue.num))]) = Except.ok
      [("name", JValue.str "BRCA1"), ("gene_id", JValue.str "672"),
       ("description", JValue.str "No description available"),
       ("summary", JValue.str "No summary available"),
       ("chromosome", JValue.str "Unknown"), ("map_location", JValue.str "Unknown"),
       ("aliases", JValue.str (String.intercalate ", " ["IRIS", "PSCP"])),
       ("mim_number", JValue.str (String.intercalate ", " ([(113705 : Int)].map toString))),
       ("organism", JValue.str "Homo sapiens"), ("gene_type", JValue.str "Unknown")] :=
  (c6_permissive_field_defaults "BRCA1" (JValue.str "672") ["IRIS", "PSCP"] [113705]
    (by decide) (by decide)).2.2

/-- C7: for the same symbol and the same upstream responses, the two
endpoints' success payloads agree on the shared field values: the gene
symbol (under `gene` / `symbol`), the identifier (under `gene_id` in
both), and the chromosome (under `chromosome` in both). -/
theorem c7_endpoints_agree_on_shared_fields
    (b1 b2 : Option JValue) (es esum chat : Except String JValue) (g : String)
    (v1 v2 v3 v4 v5 v6 v7 v8 v9 v10 : JValue) (r1 r2 : RouterResult)
    (h1 : extract_symbol b1 "gene" = Except.ok g)
    (h2 : extract_symbol b2 "gene_name" = Except.ok g)
    (hg : g ≠ "")
    (hrec : search_gene g es esum =
      [("name", v1), ("gene_id", v2), ("description", v3), ("summary", v4),
       ("chromosome", v5), ("map_location", v6), ("aliases", v7),
       ("mim_number", v8), ("organism", v9), ("gene_type", v10)])
    (hr1 : search_handler b1 es esum chat = Except.ok r1)
    (hr2 : api_search_handler b2 es esum chat = Except.ok r2) :
    r1.status = 200 ∧ r2.status = 200 ∧
    r1.body.lookup "gene" = some v1 ∧ r2.body.lookup "symbol" = some v1 ∧
    r1.body.lookup "gene_id" = some v2 ∧ r2.body.lookup "gene_id" = some v2 ∧
    r1.body.lookup "chromosome" = some v5 ∧ r2.body.lookup "chromosome" = some v5 := by
  rw [search_handler_success b1 es esum chat g v1 v2 v3 v4 v5 v6 v7 v8 v9 v10 h1 hg hrec] at hr1
  rw [api_search_handler_success b2 es esum chat g v1 v2 v3 v4 v5 v6 v7 v8 v9 v10 h2 hg hrec] at hr2
  cases hr1
  cases hr2
  exact ⟨rfl, rfl, rfl, rfl, rfl, rfl, rfl, rfl⟩

/-- Witness for C7 at the BRCA1 fixtures. -/
theorem c7_endpoints_agree_on_shared_fields_witness :
    ((⟨200,
      [("success", JValue.bool true), ("gene", JValue.str "BRCA1"), ("gene_id", JValue.str "672"),
       ("description", JValue.str "BRCA1 DNA repair associated"),
       ("summary", JValue.str "This gene encodes a tumor suppressor."),
       ("chromosome", JValue.str "17"), ("map_location", JValue.str "17q21.31"),
       ("aliases", JValue.str "IRIS, PSCP"), ("mim_number", JValue.str "113705"),
       ("organism", JValue.str "Homo sapiens"), ("gene_type", JValue.str "protein-coding"),
       ("ai_summary", JValue.str "BRCA1 repairs DNA."), ("source", JValue.str "NCBI Gene Database"),
       ("ai_model", JValue.str "anthropic/claude-3.5-sonnet")], 1, 1⟩ : RouterResult).status = 200) ∧
    ((⟨200,
      [("symbol", JValue.str "BRCA1"), ("name", JValue.str "BRCA1 DNA repair associated"),
       ("gene_id", JValue.str "672"), ("chromosome", JValue.str "17"),
       ("location", JValue.str "17q21.31"),
       ("description", JValue.str "This gene encodes a tumor suppressor."),
       ("aliases", JValue.str "IRIS, PSCP"), ("mim_number", JValue.str "113705"),
       ("organism", JValue.str "Homo sapiens"), ("gene_type", JValue.str "protein-coding"),
       ("ai_summary", JValue.str "BRCA1 repairs DNA."),
       ("ai_model", JValue.str "anthropic/claude-3.5-sonnet")], 1, 1⟩ : RouterResult).status = 200) ∧
    ([("success", JValue.bool true), ("gene", JValue.str "BRCA1"), ("gene_id", JValue.str "672"),
      ("description", JValue.str "BRCA1 DNA repair associated"),
      ("summary", JValue.str "This gene encodes a tumor suppressor."),
      ("chromosome", JValue.str "17"), ("map_location", JValue.str "17q21.31"),
      ("aliases", JValue.str "IRIS, PSCP"), ("mim_number", JValue.str "113705"),
      ("organism", JValue.str "Homo sapiens"), ("gene_type", JValue.str "protein-coding"),
      ("ai_summary", JValue.str "BRCA1 repairs DNA."), ("source", JValue.str "NCBI Gene Database"),
      ("ai_model", JValue.str "anthropic/claude-3.5-sonnet")].lookup "gene"
        = some (JValue.str "BRCA1")) ∧
    ([("symbol", JValue.str "BRCA1"), ("name", JValue.str "BRCA1 DNA repair associated"),
      ("gene_id", JValue.str "672"), ("chromosome", JValue.str "17"),
      ("location", JValue.str "17q21.31"),
      ("description", JValue.str "This gene encodes a tumor suppressor."),
      ("aliases", JValue.str "IRIS, PSCP"), ("mim_number", JValue.str "113705"),
      ("organism", JValue.str "Homo sapiens"), ("gene_type", JValue.str "protein-coding"),
      ("ai_summary", JValue.str "BRCA1 repairs DNA."),
      ("ai_model", JValue.str "anthropic/claude-3.5-sonnet")].lookup "symbol"
        = some (JValue.str "BRCA1")) ∧
    ([("success", JValue.bool true), ("gene", JValue.str "BRCA1"), ("gene_id", JValue.str "672"),
      ("description", JValue.str "BRCA1 DNA repair associated"),
      ("summary", JValue.str "This gene encodes a tumor suppressor."),
      ("chromosome", JValue.str "17"), ("map_location", JValue.str "17q21.31"),
      ("aliases", JValue.str "IRIS, PSCP"), ("mim_number", JValue.str "113705"),
      ("organism", JValue.str "Homo sapiens"), ("gene_type", JValue.str "protein-coding"),
      ("ai_summary", JValue.str "BRCA1 repairs DNA."), ("source", JValue.str "NCBI Gene Database"),
      ("ai_model", JValue.str "anthropic/claude-3.5-sonnet")].lookup "gene_id"
        = some (JValue.str "672")) ∧
    ([("symbol", JValue.str "BRCA1"), ("name", JValue.str "BRCA1 DNA repair associated"),
      ("gene_id", JValue.str "672"), ("chromosome", JValue.str "17"),
      ("location", JValue.str "17q21.31"),
      ("description", JValue.str "This gene encodes a tumor suppressor."),
      ("aliases", JValue.str "IRIS, PSCP"), ("mim_number", JValue.str "113705"),
      ("organism", JValue.str "Homo sapiens"), ("gene_type", JValue.str "protein-coding"),
      ("ai_summary", JValue.str "BRCA1 repairs DNA."),
      ("ai_model", JValue.str "anthropic/claude-3.5-sonnet")].lookup "gene_id"
        = some (JValue.str "672")) ∧
    ([("success", JValue.bool true), ("gene", JValue.str "BRCA1"), ("gene_id", JValue.str "672"),
      ("description", JValue.str "BRCA1 DNA repair associated"),
      ("summary", JValue.str "This gene encodes a tumor suppressor."),
      ("chromosome", JValue.str "17"), ("map_location", JValue.str "17q21.31"),
      ("aliases", JValue.str "IRIS, PSCP"), ("mim_number", JValue.str "113705"),
      ("organism", JValue.str "Homo sapiens"), ("gene_type", JValue.str "protein-coding"),
      ("ai_summary", JValue.str "BRCA1 repairs DNA."), ("source", JValue.str "NCBI Gene Database"),
      ("ai_model", JValue.str "anthropic/claude-3.5-sonnet")].lookup "chromosome"
        = some (JValue.str "17")) ∧
    ([("symbol", JValue.str "BRCA1"), ("name", JValue.str "BRCA1 DNA repair associated"),
      ("gene_id", JValue.str "672"), ("chromosome", JValue.str "17"),
      ("location", JValue.str "17q21.31"),
      ("description", JValue.str "This gene encodes a tumor suppressor."),
      ("aliases", JValue.str "IRIS, PSCP"), ("mim_number", JValue.str "113705"),
      ("organism", JValue.str "Homo sapiens"), ("gene_type", JValue.str "protein-coding"),
      ("ai_summary", JValue.str "BRCA1 repairs DNA."),
      ("ai_model", JValue.str "anthropic/claude-3.5-sonnet")].lookup "chromosome"
        = some (JValue.str "17")) :=
  c7_endpoints_agree_on_shared_fields
    (some (JValue.obj [("gene", JValue.str "BRCA1")]))
    (some (JValue.obj [("gene_name", JValue.str "BRCA1")]))
    esFix esumFix chatFix "BRCA1"
    (JValue.str "BRCA1") (JValue.str "672") (JValue.str "BRCA1 DNA repair associated")
    (JValue.str "This gene encodes a tumor suppressor.") (JValue.str "17")
    (JValue.str "17q21.31") (JValue.str "IRIS, PSCP") (JValue.str "113705")
    (JValue.str "Homo sapiens") (JValue.str "protein-coding") _ _
    rfl rfl (by decide) rfl rfl rfl

/-- A key found by `lookup` is seen by `any`. -/
theorem lookup_some_any (fs : List (String × JValue)) (k : String) (v : JValue)
    (h : fs.lookup k = some v) : (fs.any fun p => p.1 == k) = true := by
  induction fs with
  | nil => simp [List.lookup] at h
  | cons p t ih =>
    obtain ⟨a, b⟩ := p
    simp only [List.lookup] at h
    by_cases hk : k = a
    · subst hk
      simp
    · have hne : (k == a) = false := beq_eq_false_iff_ne.mpr hk
      rw [hne] at h
      simp [ih h]

/-- A missing or empty `idlist` makes `search_gene` return the fixed
`"Gene not found"` error dict (the `NotFound` outcome). -/
theorem search_gene_no_idlist (g : String) (esum : Except String JValue)
    (fs : List (String × JValue))
    (hfs : (fs.any fun p => p.1 == "idlist") = false ∨
           fs.lookup "idlist" = some (JValue.arr [])) :
    search_gene g (Except.ok (JValue.obj [("esearchresult", JValue.obj fs)])) esum =
      [("error", JValue.str "Gene not found")] := by
  unfold search_gene search_gene_body
  rcases hfs with hno | hemp
  · simp [ok_bind, JValue.index, List.lookup, JValue.hasKey, hno, pure, Except.pure]
  · have hk := lookup_some_any fs "idlist" (JValue.arr []) hemp
    simp [ok_bind, JValue.index, List.lookup, JValue.hasKey, hk, hemp, JValue.truthy,
          pure, Except.pure]

/-- The empty pattern occurs in every string. -/
theorem strOccursAux_nil (msg : List Char) : strOccursAux msg [] = true := by
  cases msg <;> rfl

/-- A list is a prefix of itself extended on the right. -/
theorem isPrefixOf_self_append (l r : List Char) : l.isPrefixOf (l ++ r) = true := by
  induction l with
  | nil => simp [List.isPrefixOf]
  | cons x xs ih => simp [List.isPrefixOf, ih]

/-- A pattern that prefixes the string is found by the scan. -/
theorem strOccursAux_prefix (msg pat : List Char) (h : List.isPrefixOf pat msg = true) :
    strOccursAux msg pat = true := by
  cases pat with
  | nil => exact strOccursAux_nil msg
  | cons p ps =>
    cases msg with
    | nil => simp [List.isPrefixOf] at h
    | cons c cs => simp [strOccursAux, h]

/-- Occurrence survives prepending a character. -/
theorem strOccursAux_cons (y : Char) (msg pat : List Char)
    (h : strOccursAux msg pat = true) : strOccursAux (y :: msg) pat = true := by
  cases pat with
  | nil => rfl
  | cons p ps => simp [strOccursAux, h]

/-- The middle segment is always found by the substring scan. -/
theorem strOccursAux_append (a b c : List Char) : strOccursAux (a ++ b ++ c) b = true := by
  induction a with
  | nil =>
    simp only [List.nil_append]
    exact strOccursAux_prefix (b ++ c) b (isPrefixOf_self_append b c)
  | cons y a ih =>
    simp only [List.cons_append]
    exact strOccursAux_cons y (a ++ b ++ c) b ih

/-- Python `sym in (pre + sym + post)` is always true. -/
theorem strOccurs_append (pre sym post : String) :
    strOccurs sym (pre ++ sym ++ post) = true := by
  unfold strOccurs
  have hd : (pre ++ sym ++ post).toList = pre.toList ++ sym.toList ++ post.toList := by
    cases pre
    cases sym
    cases post
    simp [String.toList]
  rw [hd]
  exact strOccursAux_append _ _ _

/-- Counterexample to C8 as stated: for the unknown symbol `"ZZZZZ"` the
`/search` endpoint answers 404 with the fixed body
`{"error": "Gene not found"}`, whose message does not reference the
input symbol. -/
theorem c8_counterexample_search_message_fixed :
    search_handler (some (JValue.obj [("gene", JValue.str "ZZZZZ")])) esEmptyFix
        (Except.ok JValue.null) (Except.ok JValue.null) =
      Except.ok ⟨404, [("error", JValue.str "Gene not found")], 1, 0⟩ ∧
    strOccurs "ZZZZZ" "Gene not found" = false :=
  ⟨rfl, rfl⟩

/-- C8 (amended): for a symbol whose upstream identifier list is missing
or empty, both endpoints answer with not-found status; `/api/search`'s
error message interpolates (hence references) the input symbol, while
`/search` answers with the fixed message `"Gene not found"`, which does
not reference the symbol. -/
theorem c8_not_found_responses
    (b1 b2 : Option JValue) (esum1 chat1 esum2 chat2 : Except String JValue)
    (g1 g2 : String) (fs1 fs2 : List (String × JValue))
    (h1 : extract_symbol b1 "gene" = Except.ok g1) (hg1 : g1 ≠ "")
    (h2 : extract_symbol b2 "gene_name" = Except.ok g2) (hg2 : g2 ≠ "")
    (hfs1 : (fs1.any fun p => p.1 == "idlist") = false ∨
            fs1.lookup "idlist" = some (JValue.arr []))
    (hfs2 : (fs2.any fun p => p.1 == "idlist") = false ∨
            fs2.lookup "idlist" = some (JValue.arr [])) :
    search_handler b1 (Except.ok (JValue.obj [("esearchresult", JValue.obj fs1)])) esum1 chat1 =
      Except.ok ⟨404, [("error", JValue.str "Gene not found")], 1, 0⟩ ∧
    api_search_handler b2 (Except.ok (JValue.obj [("esearchresult", JValue.obj fs2)])) esum2 chat2 =
      Except.ok ⟨404, [("error", JValue.str ("Gene " ++ g2 ++ " not found in database"))], 1, 0⟩ ∧
    strOccurs g2 ("Gene " ++ g2 ++ " not found in database") = true := by
  refine ⟨?_, ?_, strOccurs_append "Gene " g2 " not found in database"⟩
  · exact search_handler_notfound b1 _ esum1 chat1 g1 "Gene not found" h1 hg1
      (search_gene_no_idlist g1 esum1 fs1 hfs1)
  · exact api_search_handler_notfound b2 _ esum2 chat2 g2 "Gene not found" h2 hg2
      (search_gene_no_idlist g2 esum2 fs2 hfs2)

/-- Witness for the amended C8 at the unknown symbol `"ZZZ"`. -/
theorem c8_not_found_responses_witness :
    search_handler (some (JValue.obj [("gene", JValue.str "ZZZ")]))
        (Except.ok (JValue.obj [("esearchresult", JValue.obj [("idlist", JValue.arr [])])]))
        (Except.ok JValue.null) (Except.ok JValue.null) =
      Except.ok ⟨404, [("error", JValue.str "Gene not found")], 1, 0⟩ ∧
    api_search_handler (some (JValue.obj [("gene_name", JValue.str "ZZZ")]))
        (Except.ok (JValue.obj [("esearchresult", JValue.obj [])]))
        (Except.ok JValue.null) (Except.ok JValue.null) =
      Except.ok ⟨404, [("error", JValue.str ("Gene " ++ "ZZZ" ++ " not found in database"))], 1, 0⟩ ∧
    strOccurs "ZZZ" ("Gene " ++ "ZZZ" ++ " not found in database") = true :=
  c8_not_found_responses
    (some (JValue.obj [("gene", JValue.str "ZZZ")]))
    (some (JValue.obj [("gene_name", JValue.str "ZZZ")]))
    (Except.ok JValue.null) (Except.ok JValue.null)
    (Except.ok JValue.null) (Except.ok JValue.null)
    "ZZZ" "ZZZ" [("idlist", JValue.arr [])] []
    rfl (by decide) rfl (by decide)
    (Or.inr rfl) (Or.inl rfl)

end GeneApp
